import Mathlib

/-!
Verification of the ordhook configuration module
(`src/components/ordhook-core/src/config/mod.rs`).

The module is a pure configuration-resolution layer: a canonical `Config`
aggregate, three named profile constructors, and derivation methods that
project the aggregate into subsystem-specific views.  Machine integers
(`usize`, `u16`, `u32`) are modelled as `Nat`; `usize::saturating_sub` is
`Nat` subtraction, which saturates at zero.  `PathBuf` values are modelled
by their displayed string.  The two environment reads (`num_cpus::get()`
and `std::env::current_dir()`) are passed as explicit parameters to the
profile constructors.  The `unreachable!()` arms of the variant-specific
accessors are modelled by an `Option` result: `none` is the halt, `some`
is a normal return.
-/

namespace Ordhook

/-- Bitcoin network variants (`chainhook_sdk::types::BitcoinNetwork`),
the closed enumeration matched in `get_ordhook_config`. -/
inductive BitcoinNetwork
  | Mainnet
  | Regtest
  | Testnet
  | Signet
  deriving DecidableEq, Repr

/-- Stacks network variants (`chainhook_sdk::types::StacksNetwork`) used by
the profile constructors. -/
inductive StacksNetwork
  | Devnet
  | Testnet
  | Mainnet
  deriving DecidableEq, Repr

/-- `chainhook_sdk::types::StacksNodeConfig`: the Stacks-node endpoint bundle
carried by the `Stacks` block-signaling variant. -/
structure StacksNodeConfig where
  rpc_url : String
  ingestion_port : Nat
  deriving DecidableEq, Repr

/-- `StacksNodeConfig::default_localhost(port)`: a localhost Stacks node with
the given ingestion port. -/
def StacksNodeConfig.default_localhost (port : Nat) : StacksNodeConfig :=
  { rpc_url := "http://localhost:20443", ingestion_port := port }

/-- `chainhook_sdk::types::BitcoinBlockSignaling`: how new bitcoin blocks are
signalled to the observer. -/
inductive BitcoinBlockSignaling
  | Stacks (config : StacksNodeConfig)
  | ZeroMQ (url : String)
  deriving DecidableEq, Repr

/-- `chainhook_sdk::indexer::IndexerConfig` (the `network` field of `Config`):
chain connectivity and chain-selection parameters. -/
structure IndexerConfig where
  bitcoind_rpc_url : String
  bitcoind_rpc_username : String
  bitcoind_rpc_password : String
  bitcoin_block_signaling : BitcoinBlockSignaling
  stacks_network : StacksNetwork
  bitcoin_network : BitcoinNetwork
  deriving DecidableEq, Repr

/-- `StorageConfig { working_dir: String }`. -/
structure StorageConfig where
  working_dir : String
  deriving DecidableEq, Repr

/-- `LogConfig`: the two independent verbosity toggles. -/
structure LogConfig where
  ordinals_internals : Bool
  chainhook_internals : Bool
  deriving DecidableEq, Repr

/-- `PredicatesApiConfig { http_port: u16, display_logs: bool }`. -/
structure PredicatesApiConfig where
  http_port : Nat
  display_logs : Bool
  deriving DecidableEq, Repr

/-- `PredicatesApi`: the HTTP predicate-API gate, `Off` or `On(settings)`. -/
inductive PredicatesApi
  | Off
  | On (config : PredicatesApiConfig)
  deriving DecidableEq, Repr

/-- `SnapshotConfig`: bootstrap strategy, `Build` or `Download(base_url)`. -/
inductive SnapshotConfig
  | Build
  | Download (url : String)
  deriving DecidableEq, Repr

/-- `ResourcesConfig`: raw numeric capacity inputs. -/
structure ResourcesConfig where
  ulimit : Nat
  cpu_core_available : Nat
  memory_available : Nat
  bitcoind_rpc_threads : Nat
  bitcoind_rpc_timeout : Nat
  expected_observers_count : Nat
  deriving DecidableEq, Repr

/-- The canonical `Config` aggregate. -/
structure Config where
  storage : StorageConfig
  http_api : PredicatesApi
  resources : ResourcesConfig
  network : IndexerConfig
  snapshot : SnapshotConfig
  logs : LogConfig
  deriving DecidableEq, Repr

/-- `crate::core::OrdhookConfig`, the indexing view produced by
`get_ordhook_config`; its fields are the ones assigned there. -/
structure OrdhookConfig where
  resources : ResourcesConfig
  db_path : String
  first_inscription_height : Nat
  logs : LogConfig
  deriving DecidableEq, Repr

/-- `chainhook_sdk::observer::EventObserverConfig`, the observer view produced
by `get_event_observer_config`; its fields are the ones assigned there.  The
`chainhook_config` and `data_handler_tx` fields are opaque at this layer
(always set to `None`), so they are modelled as `Option Unit`. -/
structure EventObserverConfig where
  bitcoin_rpc_proxy_enabled : Bool
  chainhook_config : Option Unit
  ingestion_port : Nat
  bitcoind_rpc_username : String
  bitcoind_rpc_password : String
  bitcoind_rpc_url : String
  bitcoin_block_signaling : BitcoinBlockSignaling
  display_logs : Bool
  cache_path : String
  bitcoin_network : BitcoinNetwork
  stacks_network : StacksNetwork
  data_handler_tx : Option Unit
  deriving DecidableEq, Repr

/-- `https://archive.hiro.so/mainnet/ordhook/mainnet-ordhook-sqlite-latest`,
the `DEFAULT_MAINNET_ORDINALS_SQLITE_ARCHIVE` constant. -/
def DEFAULT_MAINNET_ORDINALS_SQLITE_ARCHIVE : String :=
  "https://archive.hiro.so/mainnet/ordhook/mainnet-ordhook-sqlite-latest"

def DEFAULT_INGESTION_PORT : Nat := 20455

def DEFAULT_CONTROL_PORT : Nat := 20456

def DEFAULT_ULIMIT : Nat := 2048

def DEFAULT_MEMORY_AVAILABLE : Nat := 8

def DEFAULT_BITCOIND_RPC_THREADS : Nat := 4

def DEFAULT_BITCOIND_RPC_TIMEOUT : Nat := 15

/-- A fresh `PathBuf::new()`, displayed. -/
def pathBufNew : String := ""

/-- `PathBuf::push` of a relative component, at the level of displayed
strings: pushing onto the empty path yields the component itself, otherwise
the component is appended after a separator. -/
def pathBufPush (path component : String) : String :=
  if path = "" then component else path ++ "/" ++ component

/-- `ResourcesConfig::get_optimal_thread_pool_capacity`:
`self.cpu_core_available.saturating_sub(2).max(1)`. -/
def ResourcesConfig.get_optimal_thread_pool_capacity (self : ResourcesConfig) : Nat :=
  Nat.max (self.cpu_core_available - 2) 1

/-- `Config::is_http_api_enabled`. -/
def Config.is_http_api_enabled (self : Config) : Bool :=
  match self.http_api with
  | PredicatesApi.Off => false
  | PredicatesApi.On _ => true

/-- `Config::expected_cache_path`: pushes the working directory onto a fresh
`PathBuf`. -/
def Config.expected_cache_path (self : Config) : String :=
  pathBufPush pathBufNew self.storage.working_dir

/-- `Config::get_ordhook_config`: the indexing view, with the activation
height selected by a total match over the bitcoin network (no fallback
arm). -/
def Config.get_ordhook_config (self : Config) : OrdhookConfig :=
  { resources := self.resources
    db_path := self.expected_cache_path
    first_inscription_height :=
      match self.network.bitcoin_network with
      | BitcoinNetwork.Mainnet => 767430
      | BitcoinNetwork.Regtest => 1
      | BitcoinNetwork.Testnet => 2413343
      | BitcoinNetwork.Signet => 112402
    logs := self.logs }

/-- `Config::get_event_observer_config`: the observer view. -/
def Config.get_event_observer_config (self : Config) : EventObserverConfig :=
  { bitcoin_rpc_proxy_enabled := true
    chainhook_config := none
    ingestion_port := DEFAULT_INGESTION_PORT
    bitcoind_rpc_username := self.network.bitcoind_rpc_username
    bitcoind_rpc_password := self.network.bitcoind_rpc_password
    bitcoind_rpc_url := self.network.bitcoind_rpc_url
    bitcoin_block_signaling := self.network.bitcoin_block_signaling
    display_logs := false
    cache_path := self.storage.working_dir
    bitcoin_network := self.network.bitcoin_network
    stacks_network := self.network.stacks_network
    data_handler_tx := none }

/-- `Config::should_bootstrap_through_download`. -/
def Config.should_bootstrap_through_download (self : Config) : Bool :=
  match self.snapshot with
  | SnapshotConfig.Build => false
  | SnapshotConfig.Download _ => true

/-- `Config::expected_api_config`: returns the inner settings under `On`;
the `Off` arm is `unreachable!()`, modelled as `none`. -/
def Config.expected_api_config (self : Config) : Option PredicatesApiConfig :=
  match self.http_api with
  | PredicatesApi.On config => some config
  | _ => none

/-- `Config::expected_remote_ordinals_sqlite_base_url`: returns the base URL
under `Download`; the `Build` arm is `unreachable!()`, modelled as `none`. -/
def Config.expected_remote_ordinals_sqlite_base_url (self : Config) : Option String :=
  match self.snapshot with
  | SnapshotConfig.Build => none
  | SnapshotConfig.Download url => some url

/-- `Config::expected_remote_ordinals_sqlite_sha256`:
`format!("{}.sha256", base_url)`; halts (propagates `none`) when the base-URL
accessor halts. -/
def Config.expected_remote_ordinals_sqlite_sha256 (self : Config) : Option String :=
  self.expected_remote_ordinals_sqlite_base_url.map (fun url => url ++ ".sha256")

/-- `Config::expected_remote_ordinals_sqlite_url`:
`format!("{}.tar.gz", base_url)`; halts (propagates `none`) when the base-URL
accessor halts. -/
def Config.expected_remote_ordinals_sqlite_url (self : Config) : Option String :=
  self.expected_remote_ordinals_sqlite_base_url.map (fun url => url ++ ".tar.gz")

/-- `default_cache_path()`: the current working directory (passed explicitly)
with the fixed subdirectory `ordhook` pushed onto it. -/
def default_cache_path (current_dir : String) : String :=
  pathBufPush current_dir "ordhook"

/-- `Config::devnet_default`, with the two environment reads
(`num_cpus::get()` and the current directory) as explicit parameters. -/
def Config.devnet_default (num_cpus : Nat) (current_dir : String) : Config :=
  { storage := { working_dir := default_cache_path current_dir }
    http_api := PredicatesApi.Off
    snapshot := SnapshotConfig.Build
    resources :=
      { cpu_core_available := num_cpus
        memory_available := DEFAULT_MEMORY_AVAILABLE
        ulimit := DEFAULT_ULIMIT
        bitcoind_rpc_threads := DEFAULT_BITCOIND_RPC_THREADS
        bitcoind_rpc_timeout := DEFAULT_BITCOIND_RPC_TIMEOUT
        expected_observers_count := 1 }
    network :=
      { bitcoind_rpc_url := "http://0.0.0.0:18443"
        bitcoind_rpc_username := "devnet"
        bitcoind_rpc_password := "devnet"
        bitcoin_block_signaling := BitcoinBlockSignaling.Stacks
          (StacksNodeConfig.default_localhost DEFAULT_INGESTION_PORT)
        stacks_network := StacksNetwork.Devnet
        bitcoin_network := BitcoinNetwork.Regtest }
    logs := { ordinals_internals := true, chainhook_internals := false } }

/-- `Config::testnet_default`. -/
def Config.testnet_default (num_cpus : Nat) (current_dir : String) : Config :=
  { storage := { working_dir := default_cache_path current_dir }
    http_api := PredicatesApi.Off
    snapshot := SnapshotConfig.Build
    resources :=
      { cpu_core_available := num_cpus
        memory_available := DEFAULT_MEMORY_AVAILABLE
        ulimit := DEFAULT_ULIMIT
        bitcoind_rpc_threads := DEFAULT_BITCOIND_RPC_THREADS
        bitcoind_rpc_timeout := DEFAULT_BITCOIND_RPC_TIMEOUT
        expected_observers_count := 1 }
    network :=
      { bitcoind_rpc_url := "http://0.0.0.0:18332"
        bitcoind_rpc_username := "devnet"
        bitcoind_rpc_password := "devnet"
        bitcoin_block_signaling := BitcoinBlockSignaling.Stacks
          (StacksNodeConfig.default_localhost DEFAULT_INGESTION_PORT)
        stacks_network := StacksNetwork.Testnet
        bitcoin_network := BitcoinNetwork.Testnet }
    logs := { ordinals_internals := true, chainhook_internals := false } }

/-- `Config::mainnet_default`. -/
def Config.mainnet_default (num_cpus : Nat) (current_dir : String) : Config :=
  { storage := { working_dir := default_cache_path current_dir }
    http_api := PredicatesApi.Off
    snapshot := SnapshotConfig.Download DEFAULT_MAINNET_ORDINALS_SQLITE_ARCHIVE
    resources :=
      { cpu_core_available := num_cpus
        memory_available := DEFAULT_MEMORY_AVAILABLE
        ulimit := DEFAULT_ULIMIT
        bitcoind_rpc_threads := DEFAULT_BITCOIND_RPC_THREADS
        bitcoind_rpc_timeout := DEFAULT_BITCOIND_RPC_TIMEOUT
        expected_observers_count := 1 }
    network :=
      { bitcoind_rpc_url := "http://0.0.0.0:8332"
        bitcoind_rpc_username := "devnet"
        bitcoind_rpc_password := "devnet"
        bitcoin_block_signaling := BitcoinBlockSignaling.Stacks
          (StacksNodeConfig.default_localhost DEFAULT_INGESTION_PORT)
        stacks_network := StacksNetwork.Mainnet
        bitcoin_network := BitcoinNetwork.Mainnet }
    logs := { ordinals_internals := true, chainhook_internals := false } }

/-- Replace only the bitcoin-network selection of a configuration; used to
state that derivations depend on the network selection alone. -/
def Config.with_bitcoin_network (self : Config) (net : BitcoinNetwork) : Config :=
  { self with network := { self.network with bitcoin_network := net } }

theorem expected_cache_path_eq (c : Config) :
    c.expected_cache_path = c.storage.working_dir := by
  simp [Config.expected_cache_path, pathBufPush, pathBufNew]

/-- C1: the activation height derived by `get_ordhook_config` is a pure total
function of the bitcoin-network selection alone (any two configurations with
the same selection derive the same height): Mainnet maps to 767430, Regtest
to 1, Testnet to 2413343, Signet to 112402; and each profile constructor's
derived indexing configuration reports the height of its own network
selection (devnet 1, testnet 2413343, mainnet 767430). -/
theorem first_inscription_height_by_network :
    (∀ (net : BitcoinNetwork) (c1 c2 : Config),
      ((c1.with_bitcoin_network net).get_ordhook_config).first_inscription_height =
        ((c2.with_bitcoin_network net).get_ordhook_config).first_inscription_height)
    ∧ (∀ c : Config,
        ((c.with_bitcoin_network BitcoinNetwork.Mainnet).get_ordhook_config).first_inscription_height
          = 767430)
    ∧ (∀ c : Config,
        ((c.with_bitcoin_network BitcoinNetwork.Regtest).get_ordhook_config).first_inscription_height
          = 1)
    ∧ (∀ c : Config,
        ((c.with_bitcoin_network BitcoinNetwork.Testnet).get_ordhook_config).first_inscription_height
          = 2413343)
    ∧ (∀ c : Config,
        ((c.with_bitcoin_network BitcoinNetwork.Signet).get_ordhook_config).first_inscription_height
          = 112402)
    ∧ (∀ (n : Nat) (d : String),
        ((Config.devnet_default n d).get_ordhook_config).first_inscription_height = 1)
    ∧ (∀ (n : Nat) (d : String),
        ((Config.testnet_default n d).get_ordhook_config).first_inscription_height = 2413343)
    ∧ (∀ (n : Nat) (d : String),
        ((Config.mainnet_default n d).get_ordhook_config).first_inscription_height = 767430) := by
  refine ⟨fun net c1 c2 => ?_, fun c => rfl, fun c => rfl, fun c => rfl, fun c => rfl,
    fun n d => rfl, fun n d => rfl, fun n d => rfl⟩
  cases net <;> rfl

/-- C2: for every resources configuration — in particular for every value of
`cpu_core_available`, including 0, 1 and 2 — `get_optimal_thread_pool_capacity`
returns `max (cpu_core_available - 2) 1` (with saturating subtraction), so it
reserves exactly 2 cores, never returns 0 and never underflows; inputs 0, 1
and 2 all yield 1 and input 100 yields 98. -/
theorem get_optimal_thread_pool_capacity_spec :
    (∀ r : ResourcesConfig,
        r.get_optimal_thread_pool_capacity = Nat.max (r.cpu_core_available - 2) 1)
    ∧ (∀ r : ResourcesConfig, r.get_optimal_thread_pool_capacity ≠ 0)
    ∧ (∀ u m t o e : Nat,
        (ResourcesConfig.mk u 0 m t o e).get_optimal_thread_pool_capacity = 1)
    ∧ (∀ u m t o e : Nat,
        (ResourcesConfig.mk u 1 m t o e).get_optimal_thread_pool_capacity = 1)
    ∧ (∀ u m t o e : Nat,
        (ResourcesConfig.mk u 2 m t o e).get_optimal_thread_pool_capacity = 1)
    ∧ (∀ u m t o e : Nat,
        (ResourcesConfig.mk u 100 m t o e).get_optimal_thread_pool_capacity = 98) := by
  refine ⟨fun r => rfl, fun r => ?_, fun u m t o e => rfl, fun u m t o e => rfl,
    fun u m t o e => rfl, fun u m t o e => rfl⟩
  have h : 1 ≤ Nat.max (r.cpu_core_available - 2) 1 := Nat.le_max_right _ _
  have hcap : r.get_optimal_thread_pool_capacity = Nat.max (r.cpu_core_available - 2) 1 := rfl
  omega

/-- C3: the variant-specific accessors halt (modelled by `none`) on the wrong
variant and never return a sentinel or default: `expected_api_config` on an
`Off` gate and `expected_remote_ordinals_sqlite_base_url` (and both derived
URL accessors) on a `Build` strategy yield `none`; under the matching-variant
precondition the halting branch is unreachable and each accessor returns
normally (`some`). -/
theorem wrong_variant_accessors_halt :
    (∀ c : Config,
        ({ c with http_api := PredicatesApi.Off } : Config).expected_api_config = none)
    ∧ (∀ (c : Config) (s : PredicatesApiConfig),
        ({ c with http_api := PredicatesApi.On s } : Config).expected_api_config = some s)
    ∧ (∀ c : Config,
        ({ c with snapshot := SnapshotConfig.Build } : Config).expected_remote_ordinals_sqlite_base_url
          = none)
    ∧ (∀ c : Config,
        ({ c with snapshot := SnapshotConfig.Build } : Config).expected_remote_ordinals_sqlite_sha256
          = none)
    ∧ (∀ c : Config,
        ({ c with snapshot := SnapshotConfig.Build } : Config).expected_remote_ordinals_sqlite_url
          = none)
    ∧ (∀ (c : Config) (u : String),
        ({ c with snapshot := SnapshotConfig.Download u } : Config).expected_remote_ordinals_sqlite_base_url
          = some u) :=
  ⟨fun c => rfl, fun c s => rfl, fun c => rfl, fun c => rfl, fun c => rfl, fun c u => rfl⟩

/-- C4: for every configuration whose snapshot strategy is `Download u`,
`should_bootstrap_through_download` is `true`, the sha256 accessor returns
`u ++ ".sha256"` and the archive accessor returns `u ++ ".tar.gz"`; for every
configuration whose strategy is `Build`, `should_bootstrap_through_download`
is `false`. -/
theorem download_strategy_urls :
    (∀ (c : Config) (u : String),
        ({ c with snapshot := SnapshotConfig.Download u } : Config).should_bootstrap_through_download
            = true
        ∧ ({ c with snapshot := SnapshotConfig.Download u } : Config).expected_remote_ordinals_sqlite_sha256
            = some (u ++ ".sha256")
        ∧ ({ c with snapshot := SnapshotConfig.Download u } : Config).expected_remote_ordinals_sqlite_url
            = some (u ++ ".tar.gz"))
    ∧ (∀ c : Config,
        ({ c with snapshot := SnapshotConfig.Build } : Config).should_bootstrap_through_download
          = false) :=
  ⟨fun c u => ⟨rfl, rfl, rfl⟩, fun c => rfl⟩

/-- C5: the devnet and testnet profile constructors produce a `Build` snapshot
strategy, the mainnet profile constructor produces `Download` of the fixed
default archive base URL, and that constant is the expected string. -/
theorem profile_snapshot_strategies :
    (∀ (n : Nat) (d : String), (Config.devnet_default n d).snapshot = SnapshotConfig.Build)
    ∧ (∀ (n : Nat) (d : String), (Config.testnet_default n d).snapshot = SnapshotConfig.Build)
    ∧ (∀ (n : Nat) (d : String),
        (Config.mainnet_default n d).snapshot =
          SnapshotConfig.Download DEFAULT_MAINNET_ORDINALS_SQLITE_ARCHIVE)
    ∧ DEFAULT_MAINNET_ORDINALS_SQLITE_ARCHIVE =
        "https://archive.hiro.so/mainnet/ordhook/mainnet-ordhook-sqlite-latest" :=
  ⟨fun n d => rfl, fun n d => rfl, fun n d => rfl, rfl⟩

/-- C6: for every configuration — in particular whatever the two `LogConfig`
toggles are — the derived event-observer configuration has
`display_logs = false`. -/
theorem event_observer_display_logs_off :
    (∀ c : Config, (c.get_event_observer_config).display_logs = false)
    ∧ (∀ (c : Config) (b1 b2 : Bool),
        (({ c with logs := ⟨b1, b2⟩ } : Config).get_event_observer_config).display_logs = false) :=
  ⟨fun c => rfl, fun c b1 b2 => rfl⟩

/-- C7: `is_http_api_enabled` is `false` on every configuration whose gate is
`Off` and `true` on every configuration whose gate is `On s`; and for every
settings value `s`, constructing the gate as `On s` and reading it back with
`expected_api_config` returns exactly `s` (round-trip). -/
theorem http_api_gate_round_trip :
    (∀ c : Config,
        ({ c with http_api := PredicatesApi.Off } : Config).is_http_api_enabled = false)
    ∧ (∀ (c : Config) (s : PredicatesApiConfig),
        ({ c with http_api := PredicatesApi.On s } : Config).is_http_api_enabled = true)
    ∧ (∀ (c : Config) (s : PredicatesApiConfig),
        ({ c with http_api := PredicatesApi.On s } : Config).expected_api_config = some s) :=
  ⟨fun c => rfl, fun c s => rfl, fun c s => rfl⟩

/-- C8: for every configuration the resolved storage path
(`expected_cache_path`) is exactly the working directory, and it is the single
path every derivation uses: the indexing configuration's `db_path` equals
`expected_cache_path` and the event-observer configuration's `cache_path`
equals that same resolved storage path. -/
theorem cache_path_single_source :
    ∀ c : Config,
      c.expected_cache_path = c.storage.working_dir
      ∧ (c.get_ordhook_config).db_path = c.expected_cache_path
      ∧ (c.get_event_observer_config).cache_path = c.expected_cache_path :=
  fun c => ⟨expected_cache_path_eq c, rfl, (expected_cache_path_eq c).symm⟩

/-- C9: each profile constructor is a total function that fixes the HTTP API
gate to `Off`, `expected_observers_count` to 1, `bitcoind_rpc_threads` to 4,
`bitcoind_rpc_timeout` to 15, `cpu_core_available` to the host core count
passed at construction, block signaling to a Stacks-node strategy at the
default ingestion port 20455, `ordinals_internals` logging on and
`chainhook_internals` logging off. -/
theorem profile_fixed_defaults :
    ∀ (n : Nat) (d : String),
      ((Config.devnet_default n d).http_api = PredicatesApi.Off
        ∧ (Config.devnet_default n d).resources.expected_observers_count = 1
        ∧ (Config.devnet_default n d).resources.bitcoind_rpc_threads = 4
        ∧ (Config.devnet_default n d).resources.bitcoind_rpc_timeout = 15
        ∧ (Config.devnet_default n d).resources.cpu_core_available = n
        ∧ (Config.devnet_default n d).network.bitcoin_block_signaling =
            BitcoinBlockSignaling.Stacks (StacksNodeConfig.default_localhost DEFAULT_INGESTION_PORT)
        ∧ (Config.devnet_default n d).logs.ordinals_internals = true
        ∧ (Config.devnet_default n d).logs.chainhook_internals = false)
      ∧ ((Config.testnet_default n d).http_api = PredicatesApi.Off
        ∧ (Config.testnet_default n d).resources.expected_observers_count = 1
        ∧ (Config.testnet_default n d).resources.bitcoind_rpc_threads = 4
        ∧ (Config.testnet_default n d).resources.bitcoind_rpc_timeout = 15
        ∧ (Config.testnet_default n d).resources.cpu_core_available = n
        ∧ (Config.testnet_default n d).network.bitcoin_block_signaling =
            BitcoinBlockSignaling.Stacks (StacksNodeConfig.default_localhost DEFAULT_INGESTION_PORT)
        ∧ (Config.testnet_default n d).logs.ordinals_internals = true
        ∧ (Config.testnet_default n d).logs.chainhook_internals = false)
      ∧ ((Config.mainnet_default n d).http_api = PredicatesApi.Off
        ∧ (Config.mainnet_default n d).resources.expected_observers_count = 1
        ∧ (Config.mainnet_default n d).resources.bitcoind_rpc_threads = 4
        ∧ (Config.mainnet_default n d).resources.bitcoind_rpc_timeout = 15
        ∧ (Config.mainnet_default n d).resources.cpu_core_available = n
        ∧ (Config.mainnet_default n d).network.bitcoin_block_signaling =
            BitcoinBlockSignaling.Stacks (StacksNodeConfig.default_localhost DEFAULT_INGESTION_PORT)
        ∧ (Config.mainnet_default n d).logs.ordinals_internals = true
        ∧ (Config.mainnet_default n d).logs.chainhook_internals = false)
      ∧ DEFAULT_INGESTION_PORT = 20455 :=
  fun n d =>
    ⟨⟨rfl, rfl, rfl, rfl, rfl, rfl, rfl, rfl⟩,
     ⟨rfl, rfl, rfl, rfl, rfl, rfl, rfl, rfl⟩,
     ⟨rfl, rfl, rfl, rfl, rfl, rfl, rfl, rfl⟩, rfl⟩

/-- C10: all three profile constructors set RPC credentials
`"devnet"`/`"devnet"`; their network parameters differ only in the RPC
endpoint URL (devnet `http://0.0.0.0:18443`, testnet `http://0.0.0.0:18332`,
mainnet `http://0.0.0.0:8332`) and the selected stacks/bitcoin network
variants — the only remaining network field, the block-signaling mechanism,
is identical across the three. -/
theorem profile_network_credentials :
    ∀ (n : Nat) (d : String),
      ((Config.devnet_default n d).network.bitcoind_rpc_username = "devnet"
        ∧ (Config.devnet_default n d).network.bitcoind_rpc_password = "devnet"
        ∧ (Config.devnet_default n d).network.bitcoind_rpc_url = "http://0.0.0.0:18443"
        ∧ (Config.devnet_default n d).network.stacks_network = StacksNetwork.Devnet
        ∧ (Config.devnet_default n d).network.bitcoin_network = BitcoinNetwork.Regtest)
      ∧ ((Config.testnet_default n d).network.bitcoind_rpc_username = "devnet"
        ∧ (Config.testnet_default n d).network.bitcoind_rpc_password = "devnet"
        ∧ (Config.testnet_default n d).network.bitcoind_rpc_url = "http://0.0.0.0:18332"
        ∧ (Config.testnet_default n d).network.stacks_network = StacksNetwork.Testnet
        ∧ (Config.testnet_default n d).network.bitcoin_network = BitcoinNetwork.Testnet)
      ∧ ((Config.mainnet_default n d).network.bitcoind_rpc_username = "devnet"
        ∧ (Config.mainnet_default n d).network.bitcoind_rpc_password = "devnet"
        ∧ (Config.mainnet_default n d).network.bitcoind_rpc_url = "http://0.0.0.0:8332"
        ∧ (Config.mainnet_default n d).network.stacks_network = StacksNetwork.Mainnet
        ∧ (Config.mainnet_default n d).network.bitcoin_network = BitcoinNetwork.Mainnet)
      ∧ ((Config.devnet_default n d).network.bitcoin_block_signaling =
            (Config.testnet_default n d).network.bitcoin_block_signaling
        ∧ (Config.testnet_default n d).network.bitcoin_block_signaling =
            (Config.mainnet_default n d).network.bitcoin_block_signaling) :=
  fun n d =>
    ⟨⟨rfl, rfl, rfl, rfl, rfl⟩, ⟨rfl, rfl, rfl, rfl, rfl⟩,
     ⟨rfl, rfl, rfl, rfl, rfl⟩, rfl, rfl⟩

end Ordhook
